import Mathlib

/-!
Verification development for the `scripts/update.py` pipeline of the
conda-ecopkgs repository: an incremental package-version verification
engine.  The Python source is shallowly embedded: each `def` below
transcribes one Python function (dictionaries become association lists in
insertion order, ambient process state such as `platform.machine()` and the
filesystem become explicit parameters, and the sandbox runtime becomes an
injected `run` function).
-/

/-- A manifest tree, as parsed from a `supported-versions.yml` file:
a Python dict mapping an OS-version string to a dict mapping a
package-version string to a list of architecture strings.  Dict iteration
order (insertion order) is kept by using association lists. -/
abbrev ManifestTree : Type := List (String × List (String × List String))

/-- `supported-versions.yml` constant, from `SUPPORTED_VERSIONS_FILE` in the
source. -/
def SUPPORTED_VERSIONS_FILE : String := "supported-versions.yml"

/-- `CONDA_IMAGE_REPO` constant from the source. -/
def CONDA_IMAGE_REPO : String := "openeuler/conda"

/-- `CONDA_IMAGE_VERSION` constant from the source. -/
def CONDA_IMAGE_VERSION : String := "25.1.1"

/-- Python's `d.get(k, default)` on an association list: value of the first
pair whose key equals `k`, else the default. -/
def getD {α : Type} (m : List (String × α)) (k : String) (d : α) : α :=
  match m.find? (fun p => p.1 == k) with
  | some p => p.2
  | none => d

/-- Well-formedness of a manifest tree coming from a Python dict of dicts:
keys are pairwise distinct at both nesting levels. -/
def ManifestTree.WF (t : ManifestTree) : Prop :=
  (t.map Prod.fst).Nodup ∧ ∀ p ∈ t, (p.2.map Prod.fst).Nodup

instance (t : ManifestTree) : Decidable t.WF := by
  unfold ManifestTree.WF
  infer_instance

/-- Python's `"-sp" in s` on a character list: does `-sp` occur as a
contiguous substring? -/
def hasDashSp : List Char → Bool
  | '-' :: 's' :: 'p' :: _ => true
  | _ :: rest => hasDashSp rest
  | [] => false

/-- Python's `s.replace("lts", "")` on a lowercased character list: delete
every non-overlapping occurrence of `lts`, scanning left to right. -/
def removeLts : List Char → List Char
  | 'l' :: 't' :: 's' :: rest => removeLts rest
  | c :: rest => c :: removeLts rest
  | [] => []

/-- `transform_version_format` from the source: lowercase the OS version;
if it contains the substring `-sp`, delete every `lts`; delete all `.` and
`-` characters; prepend `oe`. -/
def transform_version_format (os_version : String) : String :=
  let lower_version := os_version.data.map Char.toLower
  let lower_version :=
    if hasDashSp lower_version then removeLts lower_version
    else lower_version
  let ret := lower_version.filter (fun c => !(c == '.') && !(c == '-'))
  String.mk ('o' :: 'e' :: ret)

/-- `need_verify` from the source.  `machine_arch` stands for the ambient
`platform.machine()` call, passed explicitly.  Returns `true` iff the
architecture is the host architecture or `noarch`, and is absent from the
baseline's architecture list for the same OS-version/package-version key
(missing keys default to `{}` / `[]`). -/
def need_verify (origin_data : ManifestTree) (os_version : String)
    (package_version : String) (os_arch : String)
    (machine_arch : String) : Bool :=
  let app_versions := getD origin_data os_version []
  let origin_arches := getD app_versions package_version []
  if os_arch != machine_arch && os_arch != "noarch" then false
  else !(origin_arches.contains os_arch)

/-- A verification task: one `(package, osVersion, packageVersion, arch)`
support claim to exercise, as produced by the loops of
`verify_change_file`. -/
structure VerificationTask where
  package : String
  osVersion : String
  packageVersion : String
  arch : String
deriving DecidableEq, Repr

/-- The Version Comparator: the triple-nested loop of `verify_change_file`
with the dispatcher factored out.  Iterates every
`(osVersion, packageVersion, arch)` triple of the proposed tree in order
and emits a task exactly when `need_verify` holds against the baseline. -/
def diff (update_data origin_data : ManifestTree)
    (machine_arch : String) (package : String) : List VerificationTask :=
  update_data.flatMap (fun ov =>
    ov.2.flatMap (fun pv =>
      pv.2.filterMap (fun arch =>
        if need_verify origin_data ov.1 pv.1 arch machine_arch then
          some ⟨package, ov.1, pv.1, arch⟩
        else none)))

/-- Every admissible triple of a proposed tree, one task each: the expected
value of `diff` against an empty baseline. -/
def all_eligible_tasks (update_data : ManifestTree)
    (machine_arch : String) (package : String) : List VerificationTask :=
  update_data.flatMap (fun ov =>
    ov.2.flatMap (fun pv =>
      (pv.2.filter (fun arch =>
          arch == machine_arch || arch == "noarch")).map
        (fun arch => ⟨package, ov.1, pv.1, arch⟩)))

/-- The task loop inside `verify_change_file`: run the dispatcher `d` on
each task in order; on the first task whose dispatch returns `False`, stop
with result `False`.  Returns the overall result together with the list of
tasks whose dispatcher was actually invoked. -/
def runTasks (d : VerificationTask → Bool) :
    List VerificationTask → Bool × List VerificationTask
  | [] => (true, [])
  | t :: ts =>
    if d t then
      let r := runTasks d ts
      (r.1, t :: r.2)
    else (false, [t])

/-- `verify_change_file` from the source: diff the proposed tree against
the baseline tree and dispatch every resulting task, fail-fast.  The
per-task dispatcher (`verify_package` applied to the ambient environment)
is abstracted as `d`. -/
def verify_change_file (d : VerificationTask → Bool)
    (update_data origin_data : ManifestTree)
    (machine_arch package : String) : Bool :=
  (runTasks d (diff update_data origin_data machine_arch package)).1

/-- Python's `s.split(sep)` for a one-character separator: always returns
at least one (possibly empty) segment, and keeps empty segments. -/
def pySplit (sep : Char) : List Char → List (List Char)
  | [] => [[]]
  | c :: rest =>
    if c = sep then [] :: pySplit sep rest
    else
      match pySplit sep rest with
      | h :: t => (c :: h) :: t
      | [] => [[c]]

/-- The changed-file filter of `verify_updates`:
`change_file.endswith(SUPPORTED_VERSIONS_FILE) and
len(change_file.split("/")) == 3`. -/
def is_manifest_change (change_file : String) : Bool :=
  SUPPORTED_VERSIONS_FILE.data.isSuffixOf change_file.data
    && (pySplit '/' change_file.data).length == 3

/-- Modelled from the spec's words (for comparison with the code's filter
`is_manifest_change`): a path "matching the three-segment shape
`packages/<name>/<manifest-file>` with the manifest filename as the final
segment". -/
def spec_manifest_path_shape (change_file : String) : Bool :=
  match pySplit '/' change_file.data with
  | [a, _, c] => a == "packages".data && c == SUPPORTED_VERSIONS_FILE.data
  | _ => false

/-- The changed-file loop of `verify_updates`: skip files failing the
filter, call `verify_change_file` (abstracted as `vcf`) on each matching
file in order, and return `False` on the first failure.  Returns the
overall result together with the list of files actually loaded and
compared. -/
def process_files (vcf : String → Bool) :
    List String → Bool × List String
  | [] => (true, [])
  | f :: fs =>
    if !(is_manifest_change f) then process_files vcf fs
    else if vcf f then
      let r := process_files vcf fs
      (r.1, f :: r.2)
    else (false, [f])

/-- `parse_yaml_data` from the source: the filesystem is `fs` (path to
optional raw contents, `none` when `os.path.exists` is false) and the YAML
library call `yaml.load(f, Loader=NoFloatLoader)` is `loadYaml`, which may
fail.  A missing file yields the empty tree, not an error. -/
def parse_yaml_data (loadYaml : String → Except String ManifestTree)
    (fs : String → Option String) (yaml_file : String) :
    Except String ManifestTree :=
  match fs yaml_file with
  | none => Except.ok []
  | some content => loadYaml content

/-- The three-way verification outcome.  The Python `verify_package`
returns a Boolean and prints a diagnostic with `click.echo`; the pair
(return value, diagnostic) is modelled as one value: `success` is the
`True` return, `failure` is the `False` return from the
`CalledProcessError` branch (carrying the captured stderr), and
`configError` is a `False` return from the missing-script or
missing-docker branches (carrying their distinct messages). -/
inductive VerificationOutcome where
  | success
  | failure (reason : String)
  | configError (reason : String)
deriving DecidableEq, Repr

/-- The Boolean actually returned to the caller by `verify_package`. -/
def VerificationOutcome.toBool : VerificationOutcome → Bool
  | .success => true
  | .failure _ => false
  | .configError _ => false

/-- The `docker_cmd` list built by `verify_package`: the image tag is
`CONDA_IMAGE_VERSION-<transformed os version>`, the verify script is
bind-mounted at its own path, and the dependency channels are appended
after `-d` only when present (Python truthiness of the list). -/
def docker_cmd (verify_script package channel os_version
    package_version : String) (dependencies : List String) :
    List String :=
  let base := ["sudo", "docker", "run", "--rm", "--privileged",
    "-v", verify_script ++ ":" ++ verify_script,
    CONDA_IMAGE_REPO ++ ":" ++ CONDA_IMAGE_VERSION ++ "-"
      ++ transform_version_format os_version,
    "bash", "-x", "--", verify_script,
    "-p", package,
    "-c", channel,
    "-v", package_version]
  if dependencies.isEmpty then base else base ++ ("-d" :: dependencies)

/-- The ambient environment of `verify_package`: whether
`os.path.isfile(verify_script)` holds, whether the `docker` binary exists
on the PATH (its absence raises `FileNotFoundError` from
`subprocess.run`), and the sandbox runtime itself, mapping a command line
to (exit code, captured stderr). -/
structure SandboxEnv where
  scriptExists : Bool
  dockerPresent : Bool
  run : List String → Nat × String

/-- `verify_package` from the source: missing script is reported before
anything runs; then the docker command is built and executed;
`subprocess.run(check=True)` raises `CalledProcessError` on a non-zero
exit (the `failure` branch) and `FileNotFoundError` when docker is absent
(a `configError`); exit code 0 is `success`. -/
def verify_package (env : SandboxEnv) (verify_script package channel
    os_version package_version : String) (dependencies : List String) :
    VerificationOutcome :=
  if !env.scriptExists then
    .configError ("Install script not found " ++ verify_script)
  else
    let cmd := docker_cmd verify_script package channel os_version
      package_version dependencies
    if !env.dockerPresent then
      .configError "Docker command not found. Is Docker installed and in PATH?"
    else
      let r := env.run cmd
      if r.1 == 0 then .success else .failure r.2

/-- The command `verify_change_file` would run for a task: note the call
`verify_package(work_dir, package, os_version, package_version)` passes no
architecture. -/
def task_docker_cmd (verify_script channel : String)
    (dependencies : List String) (t : VerificationTask) : List String :=
  docker_cmd verify_script t.package channel t.osVersion t.packageVersion
    dependencies

/-- The dispatch `verify_change_file` performs for a task: `verify_package`
applied to the task's package, OS version and package version — the
architecture component is not passed. -/
def dispatch_task (env : SandboxEnv) (verify_script channel : String)
    (dependencies : List String) (t : VerificationTask) :
    VerificationOutcome :=
  verify_package env verify_script t.package channel t.osVersion
    t.packageVersion dependencies

/-- An implicit resolver of the YAML library: a tag together with the
recognizer for plain scalars of that tag (a compiled regular expression in
PyYAML). -/
structure ImplicitResolver where
  tag : String
  recognize : String → Bool

/-- `c` is between `lo` and `hi` inclusive. -/
def charBetween (lo hi c : Char) : Bool :=
  decide (lo ≤ c) && decide (c ≤ hi)

/-- A decimal digit or the `_` separator (PyYAML `[0-9_]`). -/
def isDecU (c : Char) : Bool := c.isDigit || c == '_'

/-- A hexadecimal digit or `_` (PyYAML `[0-9a-fA-F_]`). -/
def isHexU (c : Char) : Bool :=
  c.isDigit || charBetween 'a' 'f' c || charBetween 'A' 'F' c || c == '_'

/-- An octal digit or `_` (PyYAML `[0-7_]`). -/
def isOctU (c : Char) : Bool := charBetween '0' '7' c || c == '_'

/-- A binary digit or `_` (PyYAML `[0-1_]`). -/
def isBitU (c : Char) : Bool := c == '0' || c == '1' || c == '_'

/-- Strip one optional leading sign (PyYAML `[-+]?`). -/
def stripSign : List Char → List Char
  | c :: rest => if c == '-' || c == '+' then rest else c :: rest
  | [] => []

/-- PyYAML's exponent suffix `(?:[eE][-+][0-9]+)?` — note the sign is
mandatory in PyYAML's float pattern — applied to a remainder that must be
either empty or exactly the exponent. -/
def expOk : List Char → Bool
  | [] => true
  | e :: sgn :: ds =>
    (e == 'e' || e == 'E') && (sgn == '-' || sgn == '+')
      && !ds.isEmpty && ds.all Char.isDigit
  | _ => false

/-- Modelled from PyYAML's `tag:yaml.org,2002:int` implicit-resolver
pattern
`[-+]?0b[0-1_]+ | [-+]?0[0-7_]+ | [-+]?(0|[1-9][0-9_]*) | [-+]?0x[0-9a-fA-F_]+`
(the sexagesimal alternative `[-+]?[1-9][0-9_]*(:[0-5]?[0-9])+` is
omitted; omitting an alternative only makes the recognizer accept fewer
scalars). -/
def intRecognize (s : String) : Bool :=
  match stripSign s.data with
  | [] => false
  | '0' :: 'b' :: rest => !rest.isEmpty && rest.all isBitU
  | '0' :: 'x' :: rest => !rest.isEmpty && rest.all isHexU
  | '0' :: rest => rest.isEmpty || rest.all isOctU
  | c :: rest => c.isDigit && !(c == '0') && rest.all isDecU

/-- Modelled from PyYAML's `tag:yaml.org,2002:float` implicit-resolver
pattern
`[-+]?[0-9][0-9_]*\.[0-9_]*(exp)? | \.[0-9_]+(exp)? | [-+]?\.(inf|Inf|INF) | \.(nan|NaN|NAN)`
(the sexagesimal alternative is omitted, as for `intRecognize`). -/
def floatRecognize (s : String) : Bool :=
  if s.data == ['.', 'n', 'a', 'n'] || s.data == ['.', 'N', 'a', 'N']
      || s.data == ['.', 'N', 'A', 'N'] then true
  else
    match stripSign s.data with
    | '.' :: rest =>
      rest == ['i', 'n', 'f'] || rest == ['I', 'n', 'f']
        || rest == ['I', 'N', 'F']
        || (!(rest.takeWhile isDecU).isEmpty && expOk (rest.dropWhile isDecU))
    | c :: rest =>
      c.isDigit &&
        (match rest.dropWhile isDecU with
         | '.' :: r2 => expOk (r2.dropWhile isDecU)
         | _ => false)
    | [] => false

/-- Modelled from PyYAML's `tag:yaml.org,2002:bool` implicit-resolver
pattern (the exact word list of the regex). -/
def boolRecognize (s : String) : Bool :=
  (["yes", "Yes", "YES", "no", "No", "NO", "true", "True", "TRUE",
    "false", "False", "FALSE", "on", "On", "ON", "off", "Off",
    "OFF"] : List String).contains s

/-- Modelled from PyYAML's `tag:yaml.org,2002:null` implicit-resolver
pattern `~ | null | Null | NULL | <empty>`. -/
def nullRecognize (s : String) : Bool :=
  (["~", "null", "Null", "NULL", ""] : List String).contains s

/-- The implicit resolvers of PyYAML's `SafeLoader`, in registration
order, restricted to the bool, float, int and null tags.  The omitted
merge (`<<`), timestamp (date-shaped) and value (`=`) resolvers match no
scalar examined in this development. -/
def safeLoaderImplicitResolvers : List ImplicitResolver :=
  [⟨"tag:yaml.org,2002:bool", boolRecognize⟩,
   ⟨"tag:yaml.org,2002:float", floatRecognize⟩,
   ⟨"tag:yaml.org,2002:int", intRecognize⟩,
   ⟨"tag:yaml.org,2002:null", nullRecognize⟩]

/-- The resolver table of `NoFloatLoader` from the source: the loop over
`NoFloatLoader.yaml_implicit_resolvers` keeps exactly the `(tag, regexp)`
pairs whose tag is not `tag:yaml.org,2002:float` (the per-first-character
buckets of PyYAML are flattened here; the loop filters each bucket by the
same predicate). -/
def noFloatImplicitResolvers : List ImplicitResolver :=
  safeLoaderImplicitResolvers.filter
    (fun r => r.tag != "tag:yaml.org,2002:float")

/-- PyYAML scalar resolution for a plain scalar: the tag of the first
implicit resolver whose pattern matches, else the default string tag. -/
def resolveScalar (resolvers : List ImplicitResolver) (s : String) :
    String :=
  match resolvers.find? (fun r => r.recognize s) with
  | some r => r.tag
  | none => "tag:yaml.org,2002:str"

/-! ## Helper lemmas -/

theorem getD_eq_of_mem {α : Type} {m : List (String × α)} {k : String}
    {v : α} (d : α) (hnd : (m.map Prod.fst).Nodup) (hm : (k, v) ∈ m) :
    getD m k d = v := by
  induction m with
  | nil => cases hm
  | cons p rest ih =>
    rw [List.map_cons, List.nodup_cons] at hnd
    rcases List.mem_cons.mp hm with h | h
    · rw [getD, List.find?_cons_of_pos]
      · exact congrArg Prod.snd h.symm
      · rw [← h]
        exact beq_self_eq_true k
    · have hne : ¬p.1 = k := by
        intro hbeq
        exact hnd.1 (hbeq ▸ List.mem_map.mpr ⟨(k, v), h, rfl⟩)
      rw [getD, List.find?_cons_of_neg _ (by simpa using hne)]
      exact ih hnd.2 h

theorem need_verify_iff {O : ManifestTree} {os pv a m : String} :
    need_verify O os pv a m = true ↔
      (a = m ∨ a = "noarch") ∧ a ∉ getD (getD O os []) pv [] := by
  have hmemiff : ((getD (getD O os []) pv []).contains a = true)
      ↔ a ∈ getD (getD O os []) pv [] := List.elem_iff
  unfold need_verify
  split
  · next hcond =>
    simp only [Bool.and_eq_true, bne_iff_ne, ne_eq] at hcond
    simp only [Bool.false_eq_true, false_iff]
    rintro ⟨h | h, -⟩
    · exact hcond.1 h
    · exact hcond.2 h
  · next hcond =>
    simp only [Bool.and_eq_true, bne_iff_ne, ne_eq, not_and_or,
      not_not] at hcond
    have hadm : a = m ∨ a = "noarch" := by
      rcases hcond with h | h
      · exact Or.inl h
      · exact Or.inr h
    constructor
    · intro hc
      refine ⟨hadm, fun hmem => ?_⟩
      rw [Bool.not_eq_true'] at hc
      rw [hmemiff.mpr hmem] at hc
      cases hc
    · rintro ⟨-, hmem⟩
      rw [Bool.not_eq_true']
      exact Bool.eq_false_iff.mpr (fun h => hmem (hmemiff.mp h))

theorem mem_diff {U O : ManifestTree} {m pkg : String}
    {t : VerificationTask} :
    t ∈ diff U O m pkg ↔
      ∃ pvs arches, (t.osVersion, pvs) ∈ U
        ∧ (t.packageVersion, arches) ∈ pvs ∧ t.arch ∈ arches
        ∧ t.package = pkg
        ∧ need_verify O t.osVersion t.packageVersion t.arch m = true := by
  simp only [diff, List.mem_flatMap, List.mem_filterMap]
  constructor
  · rintro ⟨ov, hov, pv, hpv, a, ha, hif⟩
    by_cases hnv : need_verify O ov.1 pv.1 a m = true
    · rw [if_pos hnv] at hif
      cases Option.some.inj hif
      exact ⟨ov.2, pv.2, hov, hpv, ha, rfl, hnv⟩
    · rw [if_neg hnv] at hif
      cases hif
  · rintro ⟨pvs, arches, hU, hpv, ha, hpkg, hnv⟩
    refine ⟨(t.osVersion, pvs), hU, (t.packageVersion, arches), hpv,
      t.arch, ha, ?_⟩
    rw [if_pos hnv]
    cases t
    cases hpkg
    rfl

theorem filterMap_ite_eq_map_filter {α β : Type} (p : α → Bool)
    (f : α → β) (l : List α) :
    l.filterMap (fun a => if p a then some (f a) else none)
      = (l.filter p).map f := by
  induction l with
  | nil => rfl
  | cons a l ih =>
    rw [List.filterMap_cons, List.filter_cons]
    by_cases h : p a = true
    · rw [if_pos h, if_pos h, List.map_cons, ih]
    · rw [if_neg h, if_neg h, ih]

theorem need_verify_empty_baseline (ov pv arch m : String) :
    need_verify ([] : ManifestTree) ov pv arch m
      = (arch == m || arch == "noarch") := by
  unfold need_verify getD
  cases hm : arch == m <;> cases hn : arch == "noarch" <;>
    simp [List.find?, bne, hm, hn]

theorem runTasks_all_true (d : VerificationTask → Bool)
    (ts : List VerificationTask) (h : ∀ t ∈ ts, d t = true) :
    runTasks d ts = (true, ts) := by
  induction ts with
  | nil => rfl
  | cons t ts ih =>
    rw [runTasks, if_pos (h t (List.mem_cons_self t ts)),
      ih (fun u hu => h u (List.mem_cons_of_mem t hu))]

theorem runTasks_first_failure (d : VerificationTask → Bool)
    (l1 l2 : List VerificationTask) (t : VerificationTask)
    (h1 : ∀ u ∈ l1, d u = true) (ht : d t = false) :
    runTasks d (l1 ++ t :: l2) = (false, l1 ++ [t]) := by
  induction l1 with
  | nil =>
    rw [List.nil_append, runTasks, if_neg (by simp [ht])]
    rfl
  | cons u l1 ih =>
    rw [List.cons_append, runTasks,
      if_pos (h1 u (List.mem_cons_self u l1)),
      ih (fun w hw => h1 w (List.mem_cons_of_mem u hw))]
    rfl

/-! ## Claim theorems -/

/-- C1: novelty invariant of the Version Comparator.  A task is emitted
for a triple only if its architecture is absent from
`baseline[osVersion][packageVersion]` (missing keys treated as empty), and
for every well-formed tree `T`, `diff T T arch` emits no tasks. -/
theorem novelty_invariant :
    (∀ (U O : ManifestTree) (m pkg : String) (t : VerificationTask),
        t ∈ diff U O m pkg →
          t.arch ∉ getD (getD O t.osVersion []) t.packageVersion [])
      ∧ ∀ (T : ManifestTree) (m pkg : String), T.WF →
          diff T T m pkg = [] := by
  constructor
  · intro U O m pkg t ht
    rcases mem_diff.mp ht with ⟨pvs, arches, hU, hpv, ha, hpkg, hnv⟩
    exact (need_verify_iff.mp hnv).2
  · intro T m pkg hwf
    rw [List.eq_nil_iff_forall_not_mem]
    intro t ht
    rcases mem_diff.mp ht with ⟨pvs, arches, hU, hpv, ha, hpkg, hnv⟩
    have h1 : getD T t.osVersion ([] : List (String × List String)) = pvs :=
      getD_eq_of_mem _ hwf.1 hU
    have h2 : getD pvs t.packageVersion ([] : List String) = arches :=
      getD_eq_of_mem _ (hwf.2 (t.osVersion, pvs) hU) hpv
    exact (need_verify_iff.mp hnv).2 (by rw [h1, h2]; exact ha)

/-- Witness for C1 at a concrete tree and task. -/
theorem novelty_invariant_witness :
    (⟨"foo", "22.03", "1.0", "x86_64"⟩ : VerificationTask).arch
        ∉ getD (getD ([] : ManifestTree)
            (⟨"foo", "22.03", "1.0", "x86_64"⟩ : VerificationTask).osVersion [])
          (⟨"foo", "22.03", "1.0", "x86_64"⟩ : VerificationTask).packageVersion []
      ∧ diff [("22.03-LTS-SP3", [("1.2.0", ["x86_64", "noarch"])])]
          [("22.03-LTS-SP3", [("1.2.0", ["x86_64", "noarch"])])]
          "x86_64" "foo" = [] :=
  ⟨novelty_invariant.1 [("22.03", [("1.0", ["x86_64"])])] [] "x86_64" "foo"
      ⟨"foo", "22.03", "1.0", "x86_64"⟩ (by decide),
    novelty_invariant.2 [("22.03-LTS-SP3", [("1.2.0", ["x86_64", "noarch"])])]
      "x86_64" "foo" (by decide)⟩

/-- C2: architecture admission filter.  No task is ever emitted whose
architecture is neither the host architecture nor `"noarch"`. -/
theorem arch_admission_filter (U O : ManifestTree) (m pkg : String)
    (t : VerificationTask) (ht : t ∈ diff U O m pkg) :
    t.arch = m ∨ t.arch = "noarch" := by
  rcases mem_diff.mp ht with ⟨pvs, arches, hU, hpv, ha, hpkg, hnv⟩
  exact (need_verify_iff.mp hnv).1

/-- Witness for C2 at a concrete tree and task. -/
theorem arch_admission_filter_witness :
    (⟨"p", "24.03", "2.0", "noarch"⟩ : VerificationTask).arch = "x86_64"
      ∨ (⟨"p", "24.03", "2.0", "noarch"⟩ : VerificationTask).arch = "noarch" :=
  arch_admission_filter [("24.03", [("2.0", ["noarch", "ppc64le"])])] []
    "x86_64" "p" ⟨"p", "24.03", "2.0", "noarch"⟩ (by decide)

/-- C3: empty-baseline completeness.  Diffing against an empty baseline
yields exactly one task per admissible (host-architecture or `noarch`)
triple of the proposed tree, in iteration order, and an empty proposed
tree yields no tasks. -/
theorem empty_baseline_completeness :
    (∀ (U : ManifestTree) (m pkg : String),
        diff U [] m pkg = all_eligible_tasks U m pkg)
      ∧ ∀ (O : ManifestTree) (m pkg : String), diff [] O m pkg = [] := by
  constructor
  · intro U m pkg
    unfold diff all_eligible_tasks
    congr 1
    funext ov
    congr 1
    funext pv
    have hfun : (fun arch =>
        if need_verify ([] : ManifestTree) ov.1 pv.1 arch m then
          some (⟨pkg, ov.1, pv.1, arch⟩ : VerificationTask)
        else none)
        = fun arch =>
            if (arch == m || arch == "noarch") then
              some (⟨pkg, ov.1, pv.1, arch⟩ : VerificationTask)
            else none := by
      funext arch
      rw [need_verify_empty_baseline]
    rw [hfun, filterMap_ite_eq_map_filter]
  · intro O m pkg
    rfl

/-- C4: fail-fast dispatch.  In a task sequence, every dispatcher up to
and including the first failing one is invoked and the run result is
`False`; if every task succeeds the result is `True` with all dispatchers
invoked; in particular with three tasks where the second fails, the third
dispatcher is never invoked. -/
theorem fail_fast_dispatch :
    (∀ (d : VerificationTask → Bool) (l1 l2 : List VerificationTask)
        (t : VerificationTask), (∀ u ∈ l1, d u = true) → d t = false →
          runTasks d (l1 ++ t :: l2) = (false, l1 ++ [t]))
      ∧ (∀ (d : VerificationTask → Bool) (ts : List VerificationTask),
          (∀ u ∈ ts, d u = true) → runTasks d ts = (true, ts))
      ∧ ∀ (d : VerificationTask → Bool) (t1 t2 t3 : VerificationTask),
          d t1 = true → d t2 = false →
            runTasks d [t1, t2, t3] = (false, [t1, t2]) := by
  refine ⟨runTasks_first_failure, runTasks_all_true, ?_⟩
  intro d t1 t2 t3 h1 h2
  have h := runTasks_first_failure d [t1] [t3] t2
    (fun u hu => by rw [List.mem_singleton.mp hu]; exact h1) h2
  simpa using h

/-- Witness for C4: a concrete three-task run whose second task fails. -/
theorem fail_fast_dispatch_witness :
    runTasks (fun t => t.package == "good")
      [⟨"good", "22.03", "1", "x86_64"⟩, ⟨"bad", "22.03", "1", "x86_64"⟩,
        ⟨"good", "24.03", "1", "x86_64"⟩]
      = (false, [⟨"good", "22.03", "1", "x86_64"⟩,
          ⟨"bad", "22.03", "1", "x86_64"⟩]) :=
  fail_fast_dispatch.2.2 (fun t => t.package == "good")
    ⟨"good", "22.03", "1", "x86_64"⟩ ⟨"bad", "22.03", "1", "x86_64"⟩
    ⟨"good", "24.03", "1", "x86_64"⟩ (by decide) (by decide)

/-- C5: the version-format transform is a function (hence deterministic)
and produces the four expected values. -/
theorem transform_version_format_values :
    transform_version_format "22.03-lts-sp3" = "oe2203sp3"
      ∧ transform_version_format "22.03-LTS-SP3" = "oe2203sp3"
      ∧ transform_version_format "24.03" = "oe2403"
      ∧ transform_version_format "24.03-LTS" = "oe2403lts" :=
  ⟨by decide, by decide, by decide, by decide⟩

/-- C7: outcome classification of the Verification Dispatcher.  Missing
script and missing docker runtime give `configError` (with their distinct
diagnostics), exit code 0 gives `success`, a non-zero exit gives `failure`
carrying the captured stderr, and the three constructors are pairwise
distinguishable. -/
theorem outcome_classification (env : SandboxEnv)
    (vs pkg ch os pv : String) (deps : List String) :
    (env.scriptExists = false →
        verify_package env vs pkg ch os pv deps
          = .configError ("Install script not found " ++ vs))
      ∧ (env.scriptExists = true → env.dockerPresent = false →
          verify_package env vs pkg ch os pv deps
            = .configError
                "Docker command not found. Is Docker installed and in PATH?")
      ∧ (env.scriptExists = true → env.dockerPresent = true →
          (env.run (docker_cmd vs pkg ch os pv deps)).1 = 0 →
            verify_package env vs pkg ch os pv deps = .success)
      ∧ (env.scriptExists = true → env.dockerPresent = true →
          (env.run (docker_cmd vs pkg ch os pv deps)).1 ≠ 0 →
            verify_package env vs pkg ch os pv deps
              = .failure (env.run (docker_cmd vs pkg ch os pv deps)).2)
      ∧ ∀ r r' : String,
          (VerificationOutcome.configError r ≠ .failure r')
            ∧ VerificationOutcome.configError r ≠ .success
            ∧ VerificationOutcome.failure r ≠ .success
            ∧ (VerificationOutcome.configError r).toBool = false
            ∧ (VerificationOutcome.failure r).toBool = false
            ∧ VerificationOutcome.success.toBool = true := by
  refine ⟨?_, ?_, ?_, ?_, ?_⟩
  · intro hs
    unfold verify_package
    rw [hs]
    rfl
  · intro hs hd
    unfold verify_package
    rw [hs, hd]
    rfl
  · intro hs hd hc
    unfold verify_package
    rw [hs, hd]
    simp only [Bool.not_true, Bool.false_eq_true, if_false, if_neg,
      Bool.not_false]
    rw [if_pos (by simpa using hc)]
  · intro hs hd hc
    unfold verify_package
    rw [hs, hd]
    simp only [Bool.not_true, Bool.false_eq_true, if_false, if_neg,
      Bool.not_false]
    rw [if_neg (by simpa using hc)]
  · intro r r'
    exact ⟨(fun h => by cases h), (fun h => by cases h),
      (fun h => by cases h), rfl, rfl, rfl⟩

/-- Witness for C7 at a concrete environment: docker present, script
present, failing exit code. -/
theorem outcome_classification_witness :
    verify_package ⟨true, true, fun _ => (2, "conda install failed")⟩
        "scripts/verify.sh" "numpy" "conda-forge" "22.03-LTS-SP3" "1.26.4" []
      = .failure "conda install failed" :=
  (outcome_classification ⟨true, true, fun _ => (2, "conda install failed")⟩
      "scripts/verify.sh" "numpy" "conda-forge" "22.03-LTS-SP3" "1.26.4"
      []).2.2.2.1 rfl rfl (by decide)

/-- C8: missing-manifest tolerance.  For every path whose file does not
exist, `parse_yaml_data` returns the empty tree, not an error. -/
theorem parse_yaml_missing_file
    (loadYaml : String → Except String ManifestTree)
    (fs : String → Option String) (p : String) (h : fs p = none) :
    parse_yaml_data loadYaml fs p = Except.ok [] := by
  unfold parse_yaml_data
  rw [h]

/-- Witness for C8: an always-failing YAML loader on an empty filesystem
still yields the empty tree. -/
theorem parse_yaml_missing_file_witness :
    parse_yaml_data (fun _ => Except.error "malformed")
        (fun _ => none) "packages/foo/supported-versions.yml"
      = Except.ok [] :=
  parse_yaml_missing_file (fun _ => Except.error "malformed")
    (fun _ => none) "packages/foo/supported-versions.yml" rfl

/-- C10: the dispatch is independent of a task's architecture.  Two tasks
agreeing on package, OS version and package version produce the identical
docker command and the same outcome, for every environment: the
architecture is never passed to `verify_package`. -/
theorem dispatch_arch_independent (env : SandboxEnv) (vs ch : String)
    (deps : List String) (t1 t2 : VerificationTask)
    (hp : t1.package = t2.package) (ho : t1.osVersion = t2.osVersion)
    (hv : t1.packageVersion = t2.packageVersion) :
    task_docker_cmd vs ch deps t1 = task_docker_cmd vs ch deps t2
      ∧ dispatch_task env vs ch deps t1 = dispatch_task env vs ch deps t2 := by
  unfold task_docker_cmd dispatch_task
  rw [hp, ho, hv]
  exact ⟨rfl, rfl⟩

/-- Witness for C10: two tasks differing only in architecture. -/
theorem dispatch_arch_independent_witness :
    task_docker_cmd "scripts/verify.sh" "conda-forge" []
        ⟨"numpy", "22.03-LTS-SP3", "1.26.4", "x86_64"⟩
      = task_docker_cmd "scripts/verify.sh" "conda-forge" []
          ⟨"numpy", "22.03-LTS-SP3", "1.26.4", "aarch64"⟩
      ∧ dispatch_task ⟨true, true, fun _ => (0, "")⟩ "scripts/verify.sh"
          "conda-forge" [] ⟨"numpy", "22.03-LTS-SP3", "1.26.4", "x86_64"⟩
        = dispatch_task ⟨true, true, fun _ => (0, "")⟩ "scripts/verify.sh"
            "conda-forge" [] ⟨"numpy", "22.03-LTS-SP3", "1.26.4", "aarch64"⟩ :=
  dispatch_arch_independent ⟨true, true, fun _ => (0, "")⟩
    "scripts/verify.sh" "conda-forge" []
    ⟨"numpy", "22.03-LTS-SP3", "1.26.4", "x86_64"⟩
    ⟨"numpy", "22.03-LTS-SP3", "1.26.4", "aarch64"⟩ rfl rfl rfl

/-- Counterexample to C6: under `NoFloatLoader` the integer-looking key
`"2203"` is still resolved to the int tag, not to the string tag — only
the float resolver is removed. -/
theorem int_key_still_coerced :
    resolveScalar noFloatImplicitResolvers "2203" = "tag:yaml.org,2002:int"
      ∧ ("tag:yaml.org,2002:int" : String) ≠ "tag:yaml.org,2002:str" :=
  ⟨by decide, by decide⟩

/-- C6 (amended): float-looking keys such as `"22.03"` are yielded as
strings — the float resolver is removed, so no scalar ever resolves to the
float tag (under `SafeLoader` the same key would become a float) — but
keys matching the retained resolvers, e.g. integer-looking keys, are still
coerced to non-string tags. -/
theorem no_float_key_coercion :
    resolveScalar noFloatImplicitResolvers "22.03" = "tag:yaml.org,2002:str"
      ∧ resolveScalar safeLoaderImplicitResolvers "22.03"
          = "tag:yaml.org,2002:float"
      ∧ ∀ s : String,
          resolveScalar noFloatImplicitResolvers s
            ≠ "tag:yaml.org,2002:float" := by
  refine ⟨by decide, by decide, ?_⟩
  intro s
  unfold resolveScalar
  cases hf : noFloatImplicitResolvers.find? (fun r => r.recognize s) with
  | none => decide
  | some r =>
    have hr : r ∈ noFloatImplicitResolvers :=
      List.mem_of_find?_eq_some hf
    have hr2 : (r.tag != "tag:yaml.org,2002:float") = true :=
      (List.mem_filter.mp hr).2
    exact bne_iff_ne.mp hr2

/-- Witness for C6 (amended) at a concrete float-looking scalar. -/
theorem no_float_key_coercion_witness :
    resolveScalar noFloatImplicitResolvers "9.5"
      ≠ "tag:yaml.org,2002:float" :=
  no_float_key_coercion.2.2 "9.5"

/-- Counterexample to C9: `verify_updates` loads and compares a changed
file that does not match the `packages/<name>/<manifest-file>` shape — the
code only checks the `supported-versions.yml` suffix and the segment
count, so `packages/foo/x-supported-versions.yml` (final segment not the
manifest filename) and `third-party/foo/supported-versions.yml` (no
`packages` segment) both pass its filter. -/
theorem nonmatching_path_loaded :
    (process_files (fun _ => true)
        ["packages/foo/x-supported-versions.yml"]).2
        = ["packages/foo/x-supported-versions.yml"]
      ∧ spec_manifest_path_shape "packages/foo/x-supported-versions.yml"
          = false
      ∧ is_manifest_change "third-party/foo/supported-versions.yml" = true
      ∧ spec_manifest_path_shape "third-party/foo/supported-versions.yml"
          = false :=
  ⟨by decide, by decide, by decide, by decide⟩

/-- C9 (amended): the Pipeline Controller loads and compares manifests
exactly for those changed paths that end with the manifest filename and
have exactly three `/`-separated segments; every other path is skipped
without affecting the result.  Neither a leading `packages` segment nor
exact equality of the final segment with the manifest filename is
enforced. -/
theorem changed_file_filter :
    (∀ (vcf : String → Bool) (f : String) (fs : List String),
        is_manifest_change f = false →
          process_files vcf (f :: fs) = process_files vcf fs)
      ∧ (∀ (vcf : String → Bool) (fs : List String) (f : String),
          f ∈ (process_files vcf fs).2 → is_manifest_change f = true)
      ∧ ∀ (vcf : String → Bool) (fs : List String),
          (∀ f, vcf f = true) →
            (process_files vcf fs).2 = fs.filter is_manifest_change := by
  refine ⟨?_, ?_, ?_⟩
  · intro vcf f fs h
    simp [process_files, h]
  · intro vcf fs
    induction fs with
    | nil =>
      intro f hf
      simp [process_files] at hf
    | cons g fs ih =>
      intro f hf
      by_cases hg : is_manifest_change g = true
      · by_cases hv : vcf g = true
        · simp [process_files, hg, hv] at hf
          rcases hf with rfl | hf
          · exact hg
          · exact ih f hf
        · simp [process_files, hg, hv] at hf
          rw [hf]
          exact hg
      · rw [Bool.not_eq_true] at hg
        simp [process_files, hg] at hf
        exact ih f hf
  · intro vcf fs hall
    induction fs with
    | nil => rfl
    | cons g fs ih =>
      by_cases hg : is_manifest_change g = true
      · simp [process_files, hg, hall g, List.filter_cons, ih]
      · rw [Bool.not_eq_true] at hg
        simp [process_files, hg, List.filter_cons, ih]

/-- Witness for C9 (amended): a concrete changed-file list with one
matching and one non-matching path. -/
theorem changed_file_filter_witness :
    (process_files (fun _ => true)
        ["packages/foo/supported-versions.yml", "README.md"]).2
      = ["packages/foo/supported-versions.yml"] := by
  rw [changed_file_filter.2.2 (fun _ => true)
    ["packages/foo/supported-versions.yml", "README.md"] (fun f => rfl)]
  decide
